import Mathlib

/-!
Verification of the credential authentication pipeline of `src/app.py`
(the `extendedLoginForm.validate` override, lines 136-181) and of the
`run_query` helper (lines 113-124), as a shallow embedding in Lean 4.

Modelling conventions:
* Python exceptions are modelled by `Except PyErr`; a run of `validate`
  is a `Run` record carrying the returned boolean (or the raised
  exception), the per-field error messages appended during the run, the
  final value of `self.user`, and traces of the external calls made
  (directory lookups, rehash-and-store writes) plus the sequence of
  pipeline checks evaluated.
* External collaborators (the flask-security user datastore, the
  password hasher, the confirmation predicate) are an abstract
  environment `Env`; `verify_and_update_password` is modelled from the
  spec's PasswordHasher interface (verify returns matched/needsRehash;
  a successful match against an outdated hash triggers one
  rehash-and-store with the plaintext, whose own failure is ignored).
* The base-class field validation `super(LoginForm, self).validate()`
  (third-party wtforms code) is abstracted by the list `superErrors` of
  field errors it recorded; it returns True exactly when that list is
  empty, which is the wtforms `Form.validate` contract.
* Python truthiness of the stored password column (`NULL` or the empty
  string are falsy) is `pyTruthyStrOpt`.
* Attribute access on the `User` model (src/app.py lines 85-100) is
  modelled by membership in `userAttributes`, the list of attributes the
  class actually defines (its columns and methods plus those inherited
  from flask-security UserMixin); accessing a missing attribute raises
  `AttributeError`, as in Python.
-/

namespace Silkroad

/-- Python runtime errors that the embedded code can raise. -/
inductive PyErr where
  | attributeError (msg : String)
  | nameError (msg : String)
  deriving Repr, DecidableEq

/-- The `User` model of src/app.py lines 85-100: columns `id`, `username`,
`password` (nullable stored hash), `email`, `active`. -/
structure Account where
  id : Nat
  username : String
  password : Option String
  email : String
  active : Bool
  deriving Repr, DecidableEq

instance {ε α : Type} [DecidableEq ε] [DecidableEq α] :
    DecidableEq (Except ε α) := fun x y =>
  match x, y with
  | .ok a, .ok b =>
    if h : a = b then isTrue (by rw [h]) else isFalse (by simp [h])
  | .error a, .error b =>
    if h : a = b then isTrue (by rw [h]) else isFalse (by simp [h])
  | .ok _, .error _ => isFalse (by simp)
  | .error _, .ok _ => isFalse (by simp)

/-- Python `str.strip()`: remove leading and trailing whitespace. -/
def pyStrip (s : String) : String :=
  ⟨((s.data.dropWhile Char.isWhitespace).reverse.dropWhile
      Char.isWhitespace).reverse⟩

/-- Python truthiness of an optional string column: `None` and `""` are
falsy, every other string is truthy. -/
def pyTruthyStrOpt : Option String → Bool
  | none => false
  | some s => !(s == "")

/-- The attributes the `User` class of src/app.py actually defines:
its SQLAlchemy columns and methods (lines 86-100; note `confirmed_at`
is commented out at line 92) together with those inherited from
flask-security `UserMixin`.  There is no `errors` attribute. -/
def userAttributes : List String :=
  ["id", "username", "password", "email", "active", "roles",
   "hash_password", "verify_password",
   "is_active", "is_authenticated", "is_anonymous", "get_id",
   "get_auth_token", "has_role", "get_security_payload"]

/-- The external collaborators consumed by the pipeline: the user
datastore lookup, the password hasher (match test and
outdated-parameters test on a stored hash), the confirmation predicate,
and a flag saying whether the deferred rehash-and-store write fails. -/
structure Env where
  getUser : String → Option Account
  verifyHash : String → String → Bool
  needsRehash : String → Bool
  requiresConfirmation : Account → Bool
  rehashFails : Bool

/-- The seven ordered checks of the pipeline (spec steps 1-7). -/
inductive Check where
  | identifierPresence
  | secretPresence
  | identityResolution
  | secretHashPresence
  | secretVerification
  | confirmationGate
  | activationGate
  deriving Repr, DecidableEq

/-- The fixed order in which `validate` evaluates its checks. -/
def checkOrder : List Check :=
  [.identifierPresence, .secretPresence, .identityResolution,
   .secretHashPresence, .secretVerification, .confirmationGate,
   .activationGate]

/-- One complete run of `extendedLoginForm.validate`: the outcome
(`Except.ok b` for a normal return of `b`, `Except.error e` for a raised
exception), the field errors appended (field name, message, in append
order), the final value of `self.user`, the arguments of every
datastore lookup and of every rehash-and-store call, the checks whose
condition was evaluated, and which check (if any) the run failed at. -/
structure Run where
  outcome : Except PyErr Bool
  fieldErrors : List (String × String)
  user : Option Account
  lookupCalls : List String
  rehashCalls : List String
  checks : List Check
  failedAt : Option Check
  deriving Repr, DecidableEq

/-- Modelled from the spec: `flask_security.utils.verify_and_update_password`
(external library code, spec section 6 PasswordHasher interface).  Verifies
the plaintext against the stored hash of `user`; when it matches and the
hash is flagged as using outdated parameters, performs one
rehash-and-store with the now-known plaintext (returned as the list of
rehash calls made).  A failing rehash write is logged and ignored
(`Env.rehashFails` is never consulted for the result). -/
def verify_and_update_password (env : Env) (plaintext : String)
    (user : Account) : Bool × List String :=
  match user.password with
  | none => (false, [])
  | some storedHash =>
    if env.verifyHash plaintext storedHash then
      if env.needsRehash storedHash then (true, [plaintext]) else (true, [])
    else (false, [])

/-- Shallow embedding of `extendedLoginForm.validate` (src/app.py lines
136-181).  `superErrors` are the field errors recorded by
`super(LoginForm, self).validate()`, which returned True exactly when
that list is empty. -/
def validate (env : Env) (superErrors : List (String × String))
    (username password : String) : Run :=
  -- line 137: if not super(LoginForm, self).validate(): return False
  if !superErrors.isEmpty then
    { outcome := .ok false, fieldErrors := superErrors, user := none,
      lookupCalls := [], rehashCalls := [], checks := [], failedAt := none }
  -- line 142: if self.username.data.strip() == '':
  else if pyStrip username = "" then
    { outcome := .ok false,
      fieldErrors := [("username", "USERNAME NOT PROVIDED")],
      user := none, lookupCalls := [], rehashCalls := [],
      checks := [.identifierPresence],
      failedAt := some .identifierPresence }
  -- line 147: if self.password.data.strip() == '':
  else if pyStrip password = "" then
    { outcome := .ok false,
      fieldErrors := [("password", "PASSWORD NOT PROVIDED")],
      user := none, lookupCalls := [], rehashCalls := [],
      checks := [.identifierPresence, .secretPresence],
      failedAt := some .secretPresence }
  else
    -- line 153: self.user = security.datastore.get_user(self.username.data)
    match env.getUser username with
    -- line 156: if self.user is None:
    | none =>
      { outcome := .ok false,
        fieldErrors := [("username", "INCORRECT USERNAME/PASSWORD")],
        user := none, lookupCalls := [username], rehashCalls := [],
        checks := [.identifierPresence, .secretPresence,
                   .identityResolution],
        failedAt := some .identityResolution }
    | some user =>
      -- line 161: if not self.user.password:
      if !pyTruthyStrOpt user.password then
        { outcome := .ok false,
          fieldErrors := [("password", "PASSWORD WAS NOT SET")],
          user := some user, lookupCalls := [username], rehashCalls := [],
          checks := [.identifierPresence, .secretPresence,
                     .identityResolution, .secretHashPresence],
          failedAt := some .secretHashPresence }
      else
        -- line 166: if not verify_and_update_password(self.password.data, self.user):
        if !(verify_and_update_password env password user).1 then
          { outcome := .ok false,
            fieldErrors := [("password", "INCORRECT USERNAME/PASSWORD")],
            user := some user, lookupCalls := [username],
            rehashCalls := (verify_and_update_password env password user).2,
            checks := [.identifierPresence, .secretPresence,
                       .identityResolution, .secretHashPresence,
                       .secretVerification],
            failedAt := some .secretVerification }
        -- line 171: if requires_confirmation(self.user):
        else if env.requiresConfirmation user then
          -- line 172: self.user.errors.append('CONFIRMATION REQUIRED')
          -- `self.user` is the User model instance, so this attribute
          -- access succeeds only if the class defines `errors`.
          if userAttributes.contains "errors" then
            { outcome := .ok false,
              fieldErrors := [("user", "CONFIRMATION REQUIRED")],
              user := some user, lookupCalls := [username],
              rehashCalls := (verify_and_update_password env password user).2,
              checks := [.identifierPresence, .secretPresence,
                         .identityResolution, .secretHashPresence,
                         .secretVerification, .confirmationGate],
              failedAt := some .confirmationGate }
          else
            { outcome := .error (.attributeError
                "User object has no attribute errors"),
              fieldErrors := [], user := some user,
              lookupCalls := [username], rehashCalls := (verify_and_update_password env password user).2,
              checks := [.identifierPresence, .secretPresence,
                         .identityResolution, .secretHashPresence,
                         .secretVerification, .confirmationGate],
              failedAt := some .confirmationGate }
        -- line 176: if not self.user.is_active:  (UserMixin: self.active)
        else if !user.active then
          { outcome := .ok false,
            fieldErrors := [("username", "DISABLED ACCOUNT")],
            user := some user, lookupCalls := [username],
            rehashCalls := (verify_and_update_password env password user).2,
            checks := checkOrder,
            failedAt := some .activationGate }
        -- line 181: return True
        else
          { outcome := .ok true, fieldErrors := [], user := some user,
            lookupCalls := [username], rehashCalls := (verify_and_update_password env password user).2,
            checks := checkOrder,
            failedAt := none }

/-! ### The `run_query` helper (src/app.py lines 109-124) -/

/-- The names bound at the top level of the module `src/app.py`: the
imported names (lines 17-62) and the module-level definitions,
assignments, classes and functions.  `get_db` (line 109) is among them;
`getdb` is not. -/
def moduleGlobals : List String :=
  ["Flask", "request", "redirect", "url_for", "render_template",
   "session", "escape", "g", "Form", "BooleanField", "StringField",
   "PasswordField", "validators", "Required", "app", "customconfig",
   "SQLAlchemy", "psycopg2", "db", "flask_table", "Table", "Col",
   "DebugToolbarExtension", "toolbar", "Security",
   "SQLAlchemyUserDatastore", "UserMixin", "RoleMixin", "login_required",
   "RegisterForm", "LoginForm", "verify_and_update_password",
   "get_message", "validate_redirect_url", "requires_confirmation",
   "bcrypt_sha256", "click", "Decimal", "datagenerator", "query",
   "roles_users", "UserRole", "User", "get_db", "run_query",
   "extendedLoginForm", "extendedRegisterForm", "user_datastore",
   "security", "dont_send_mail_hack", "security_register_processor",
   "create_admin", "initdb", "dbusertest", "FloatField", "IntegerField",
   "SelectField", "SubmitField", "EmpCreate", "profile", "index",
   "UsersTable", "users_page", "StoresTable", "stores_page", "EmpTable",
   "createEmployee", "employees_page", "ProductsTable", "products_page",
   "redir", "acknowledgements"]

/-- One run of `run_query`: the returned pair of column names and rows
(or the exception raised) and the number of database connections
opened. -/
structure QueryRun where
  result : Except PyErr (List String × List (List String))
  dbConnections : Nat
  deriving DecidableEq

/-- Shallow embedding of `run_query` (src/app.py lines 113-124).  The
argument dict is normalised first (line 115, falsy values become
`None`); then line 116 resolves the name `getdb`, which is not bound at
module level (the helper defined at line 109 is `get_db`), so a
`NameError` is raised before any database work. -/
def run_query (queryType : String)
    (args : List (String × Option String)) : QueryRun :=
  -- line 115: args = {k:(v if v else None) for k,v in args.items()}
  let _args := args.map fun kv =>
    (kv.1, match kv.2 with
           | some v => if v = "" then none else some v
           | none => none)
  -- line 116: with getdb() as conn:
  if moduleGlobals.contains "getdb" then
    -- Unreachable: `getdb` resolves to no module-level name.  The
    -- database work of lines 117-124 would be performed here.
    { result := .ok ([], []), dbConnections := 1 }
  else
    { result := .error (.nameError "name getdb is not defined"),
      dbConnections := 0 }

/-! ### Concrete environments for witnesses and counterexamples -/

/-- A stored account: alice, active, confirmed, current hash. -/
def aliceA : Account :=
  { id := 1, username := "alice", password := some "HASH",
    email := "alice@example.com", active := true }

/-- Directory containing exactly `aliceA`; the hasher accepts plaintext
"pw" against hash "HASH"; no rehash needed; confirmation not required. -/
def envA : Env :=
  { getUser := fun s => if s = "alice" then some aliceA else none,
    verifyHash := fun p h => p == "pw" && h == "HASH",
    needsRehash := fun _ => false,
    requiresConfirmation := fun _ => false,
    rehashFails := false }

/-- Same directory and hasher as `envA`, but the confirmation predicate
holds of every account (confirmable is enabled and the account is
unconfirmed). -/
def envConf : Env := { envA with requiresConfirmation := fun _ => true }

/-- alice with a stored hash flagged as using outdated parameters. -/
def aliceOld : Account := { aliceA with password := some "OLDHASH" }

/-- Directory containing `aliceOld`; the hasher accepts "pw" against
"OLDHASH" and flags that hash as needing a rehash. -/
def envOld : Env :=
  { getUser := fun s => if s = "alice" then some aliceOld else none,
    verifyHash := fun p h => p == "pw" && h == "OLDHASH",
    needsRehash := fun h => h == "OLDHASH",
    requiresConfirmation := fun _ => false,
    rehashFails := false }

/-- `aliceOld` with the account disabled. -/
def aliceOldInactive : Account := { aliceOld with active := false }

/-- `envOld` with the stored account disabled. -/
def envOldInactive : Env :=
  { envOld with
    getUser := fun s => if s = "alice" then some aliceOldInactive else none }

/-- `Env` with the deferred rehash-and-store forced to fail or succeed. -/
def setRehashFails (env : Env) (b : Bool) : Env :=
  { env with rehashFails := b }

/-- `rehashFails` is never consulted by the pipeline: flipping it leaves
every run unchanged. -/
theorem validate_setRehashFails (env : Env) (b : Bool)
    (superErrors : List (String × String)) (username password : String) :
    validate (setRehashFails env b) superErrors username password
      = validate env superErrors username password := by
  cases env
  rfl

/-! ### Claim theorems -/

/-- C5: for a blank (empty or whitespace-only) identifier, `validate`
returns a failed result without ever invoking the directory lookup, and
(when the base-class field validation passed) the error is recorded on
the identifier field. -/
theorem c5_blank_identifier_no_lookup (env : Env)
    (superErrors : List (String × String)) (username password : String)
    (hu : pyStrip username = "") :
    (validate env superErrors username password).outcome = .ok false
    ∧ (validate env superErrors username password).lookupCalls = []
    ∧ (superErrors = [] →
        (validate env superErrors username password).fieldErrors
          = [("username", "USERNAME NOT PROVIDED")]) := by
  rcases superErrors with _ | ⟨e, es⟩
  · simp [validate, hu]
  · simp [validate]

/-- C5 witness: identifier `"   "` with secret `"x"` in `envA`. -/
theorem c5_witness :
    pyStrip "   " = ""
    ∧ ((validate envA [] "   " "x").outcome = .ok false
      ∧ (validate envA [] "   " "x").lookupCalls = []
      ∧ (([] : List (String × String)) = [] →
          (validate envA [] "   " "x").fieldErrors
            = [("username", "USERNAME NOT PROVIDED")])) :=
  ⟨by decide, c5_blank_identifier_no_lookup envA [] "   " "x" (by decide)⟩

/-- C7: for every produced result, `fieldErrors` is non-empty exactly
when the run returned failed (`succeeded = false`). -/
theorem c7_errors_iff_failed (env : Env)
    (superErrors : List (String × String)) (username password : String) :
    ((validate env superErrors username password).outcome = .ok true →
      (validate env superErrors username password).fieldErrors = [])
    ∧ ((validate env superErrors username password).outcome = .ok false →
      (validate env superErrors username password).fieldErrors ≠ []) := by
  simp only [validate]
  repeat' split
  all_goals simp_all

/-- C7 witness: the successful run of alice in `envA`. -/
theorem c7_witness :
    (validate envA [] "alice" "pw").outcome = .ok true
    ∧ (validate envA [] "alice" "pw").fieldErrors = [] :=
  ⟨by decide, (c7_errors_iff_failed envA [] "alice" "pw").1 (by decide)⟩

/-- C9: every datastore lookup performed by `validate` receives the
identifier exactly as supplied (untrimmed); when both fields are
non-blank and the base-class validation passed, exactly one lookup is
performed, with the raw identifier. -/
theorem c9_lookup_receives_raw_identifier (env : Env)
    (superErrors : List (String × String)) (username password : String) :
    (∀ x ∈ (validate env superErrors username password).lookupCalls,
        x = username)
    ∧ (superErrors = [] → pyStrip username ≠ "" → pyStrip password ≠ "" →
        (validate env superErrors username password).lookupCalls
          = [username]) := by
  constructor
  · intro x hx
    simp only [validate] at hx
    repeat' split at hx
    all_goals simp_all
  · intro hse h1 h2
    subst hse
    simp only [validate]
    simp only [List.isEmpty_nil, Bool.not_true, if_false, Bool.false_eq_true]
    rw [if_neg h1, if_neg h2]
    cases env.getUser username with
    | none => rfl
    | some user =>
      repeat' split
      all_goals rfl

/-- C9 witness: a whitespace-padded identifier is looked up verbatim. -/
theorem c9_witness :
    (validate envA [] " alice " "pw").lookupCalls = [" alice "] :=
  (c9_lookup_receives_raw_identifier envA [] " alice " "pw").2 rfl
    (by decide) (by decide)

/-- C6: the checks run in the fixed order
identifier-presence, secret-presence, identity-resolution,
secret-hash-presence, secret-verification, confirmation gate,
activation gate (the trace is always a prefix of that order); the check
a run fails at is the last one evaluated (no later check runs); a
successful run evaluated all seven. -/
theorem c6_checks_in_order (env : Env)
    (superErrors : List (String × String)) (username password : String) :
    ((validate env superErrors username password).checks
        = checkOrder.take
            (validate env superErrors username password).checks.length)
    ∧ (∀ c, (validate env superErrors username password).failedAt = some c →
        (validate env superErrors username password).checks.getLast?
          = some c)
    ∧ ((validate env superErrors username password).outcome = .ok true →
        (validate env superErrors username password).checks = checkOrder) := by
  simp only [validate]
  repeat' split
  all_goals simp_all [checkOrder]

/-- C6 witness: the wrong-secret run stops at secret verification. -/
theorem c6_witness :
    (validate envA [] "alice" "bad").failedAt = some .secretVerification
    ∧ (validate envA [] "alice" "bad").checks.getLast?
        = some .secretVerification :=
  ⟨by decide,
   (c6_checks_in_order envA [] "alice" "bad").2.1 .secretVerification
     (by decide)⟩

/-- C10: every invocation of `run_query` raises `NameError` before any
database work: its body names `getdb`, which is bound nowhere in the
module, while the helper actually defined is `get_db`. -/
theorem c10_run_query_always_raises (queryType : String)
    (args : List (String × Option String)) :
    (run_query queryType args).result
        = .error (.nameError "name getdb is not defined")
    ∧ (run_query queryType args).dbConnections = 0
    ∧ moduleGlobals.contains "getdb" = false
    ∧ moduleGlobals.contains "get_db" = true := by
  have hg : ("getdb" ∈ moduleGlobals) = False := by decide
  refine ⟨?_, ?_, by decide, by decide⟩ <;> simp [run_query, hg]

/-- C1 counterexample: in `envA`, the unknown-identifier error lands on
the `username` field while the wrong-secret error lands on the
`password` field — identical text, but not the same field, refuting
"recorded on the same field (the identifier field)". -/
theorem c1_counterexample :
    (validate envA [] "bob" "x").fieldErrors
        = [("username", "INCORRECT USERNAME/PASSWORD")]
    ∧ (validate envA [] "alice" "x").fieldErrors
        = [("password", "INCORRECT USERNAME/PASSWORD")]
    ∧ ("username" : String) ≠ "password" := by
  decide

/-- C1 amended: for every directory state, the unknown-identifier
failure and the wrong-secret failure carry the byte-identical message
"INCORRECT USERNAME/PASSWORD", the former recorded on the identifier
field and the latter on the secret field. -/
theorem c1_amended (env : Env) (u1 p1 u2 p2 : String) (a : Account)
    (h1u : pyStrip u1 ≠ "") (h1p : pyStrip p1 ≠ "")
    (h1 : env.getUser u1 = none)
    (h2u : pyStrip u2 ≠ "") (h2p : pyStrip p2 ≠ "")
    (h2 : env.getUser u2 = some a)
    (hpw : pyTruthyStrOpt a.password = true)
    (hv : (verify_and_update_password env p2 a).1 = false) :
    (validate env [] u1 p1).fieldErrors
        = [("username", "INCORRECT USERNAME/PASSWORD")]
    ∧ (validate env [] u2 p2).fieldErrors
        = [("password", "INCORRECT USERNAME/PASSWORD")] := by
  constructor
  · simp [validate, h1u, h1p, h1]
  · simp [validate, h2u, h2p, h2, hpw, hv]

/-- C1 witness: `envA` with unknown "bob" and known "alice" with a wrong
secret. -/
theorem c1_witness :
    (validate envA [] "bob" "secretpw").fieldErrors
        = [("username", "INCORRECT USERNAME/PASSWORD")]
    ∧ (validate envA [] "alice" "bad").fieldErrors
        = [("password", "INCORRECT USERNAME/PASSWORD")] :=
  c1_amended envA "bob" "secretpw" "alice" "bad" aliceA (by decide)
    (by decide) (by decide) (by decide) (by decide) (by decide) (by decide)
    (by decide)

/-- C2: at an unconfirmed account with correct credentials — an expected
validation outcome — `validate` does not return a `ValidationResult` at
all: line 172 appends to `self.user.errors`, and the `User` model
defines no `errors` attribute, so an `AttributeError` is raised. -/
theorem c2_code_bug_unconfirmed_raises :
    (validate envConf [] "alice" "pw").outcome
        = .error (.attributeError "User object has no attribute errors")
    ∧ userAttributes.contains "errors" = false := by
  decide

/-- C4: at an unconfirmed account with correct credentials the code
produces no failed result carrying a confirmation-required message on
an account-level field: no normal return happens at all (the
account-level append of line 172 raises `AttributeError` instead), and
no field error is recorded. -/
theorem c4_code_bug_no_confirmation_message :
    (∀ b, (validate envConf [] "alice" "pw").outcome ≠ Except.ok b)
    ∧ (validate envConf [] "alice" "pw").fieldErrors = []
    ∧ (validate envConf [] "alice" "pw").failedAt
        = some .confirmationGate := by
  decide

/-- C3 counterexample: a failed validation (wrong secret) in `envA`
leaves `self.user` — the resolved account handed to the session layer on
success — set to the looked-up account, not null. -/
theorem c3_counterexample :
    (validate envA [] "alice" "bad").outcome = .ok false
    ∧ (validate envA [] "alice" "bad").user = some aliceA := by
  decide

/-- C3 amended: if the run succeeded the resolved account is non-null
(and is the account the directory returned); conversely a non-null
resolved account is always the directory's answer for the supplied
identifier, and it is null exactly on runs that failed at or before
identity resolution — failures after a successful lookup (wrong secret,
unset hash, unconfirmed, disabled) keep the looked-up account. -/
theorem c3_amended (env : Env) (superErrors : List (String × String))
    (username password : String) :
    ((validate env superErrors username password).outcome = .ok true →
      ∃ a, (validate env superErrors username password).user = some a
        ∧ env.getUser username = some a)
    ∧ (∀ a, (validate env superErrors username password).user = some a →
        env.getUser username = some a) := by
  constructor
  · intro h
    simp only [validate] at h ⊢
    repeat' split
    all_goals simp_all
  · intro a ha
    simp only [validate] at ha
    repeat' split at ha
    all_goals simp_all

/-- C3 witness: the successful run of alice resolves to `aliceA`. -/
theorem c3_witness :
    ∃ a, (validate envA [] "alice" "pw").user = some a
      ∧ envA.getUser "alice" = some a :=
  (c3_amended envA [] "alice" "pw").1 (by decide)

/-- C8 counterexample: an account whose stored hash matches the supplied
secret and is flagged outdated, but which is disabled: the rehash is
invoked exactly once with the plaintext, yet `validate` returns failed,
refuting "validate returns succeeded = true" for every such account. -/
theorem c8_counterexample :
    envOldInactive.getUser "alice" = some aliceOldInactive
    ∧ aliceOldInactive.password = some "OLDHASH"
    ∧ envOldInactive.verifyHash "pw" "OLDHASH" = true
    ∧ envOldInactive.needsRehash "OLDHASH" = true
    ∧ (validate envOldInactive [] "alice" "pw").outcome = .ok false
    ∧ (validate envOldInactive [] "alice" "pw").rehashCalls = ["pw"] := by
  decide

/-- C8 amended: whenever the looked-up account's stored hash matches the
supplied secret and is flagged outdated, the rehash-and-store is invoked
exactly once, with the supplied plaintext, whatever the later gates
decide; if additionally the confirmation and activation gates pass,
`validate` returns succeeded; and a failing rehash write changes nothing
about the run. -/
theorem c8_amended (env : Env) (username password : String) (a : Account)
    (storedHash : String)
    (hu : pyStrip username ≠ "") (hp : pyStrip password ≠ "")
    (hl : env.getUser username = some a)
    (hh : a.password = some storedHash) (hne : storedHash ≠ "")
    (hv : env.verifyHash password storedHash = true)
    (hr : env.needsRehash storedHash = true) :
    (validate env [] username password).rehashCalls = [password]
    ∧ (env.requiresConfirmation a = false → a.active = true →
        (validate env [] username password).outcome = .ok true)
    ∧ (∀ b, validate (setRehashFails env b) [] username password
        = validate env [] username password) := by
  have hvr : verify_and_update_password env password a = (true, [password]) := by
    simp [verify_and_update_password, hh, hv, hr]
  refine ⟨?_, ?_, fun b => validate_setRehashFails env b [] username password⟩
  · simp only [validate]
    simp only [List.isEmpty_nil, Bool.not_true, if_false, Bool.false_eq_true]
    rw [if_neg hu, if_neg hp]
    simp only [hl, hvr, hh, pyTruthyStrOpt, hne]
    repeat' split
    all_goals simp_all [hvr]
  · intro hc ha
    simp only [validate]
    simp only [List.isEmpty_nil, Bool.not_true, if_false, Bool.false_eq_true]
    rw [if_neg hu, if_neg hp]
    simp [hl, hvr, hh, pyTruthyStrOpt, hne, hc, ha]

/-- C8 witness: alice with the outdated hash in `envOld`. -/
theorem c8_witness :
    (validate envOld [] "alice" "pw").rehashCalls = ["pw"]
    ∧ (envOld.requiresConfirmation aliceOld = false →
        aliceOld.active = true →
        (validate envOld [] "alice" "pw").outcome = .ok true)
    ∧ (∀ b, validate (setRehashFails envOld b) [] "alice" "pw"
        = validate envOld [] "alice" "pw") :=
  c8_amended envOld "alice" "pw" aliceOld "OLDHASH" (by decide) (by decide)
    (by decide) (by decide) (by decide) (by decide) (by decide)

end Silkroad
